import Mathlib

/-
Verification of the Tendermint light-client update logic of
`x/ibc/07-tendermint/update.go` (package `tendermint`).

The embedding models:
  * `time.Time` as `Int` (nanoseconds since the Unix epoch, exact arithmetic;
    the Go `time` package is an external collaborator and its `Sub` / `Unix`
    operations are modelled mathematically: `Sub` is integer subtraction of
    nanosecond instants and `Unix` is floor division by 10^9, which is what
    `time.Time.Unix` returns for any nanosecond-representable instant);
  * `time.Duration` as `Int` (nanoseconds);
  * the Tendermint light-client library functions `SignedHeaderFromProto`,
    `ValidatorSetFromProto` and `lite.Verify` as an explicit record of
    external collaborators (`Externals`), since they live outside this
    repository: the update logic only propagates their results;
  * Go `error` values built with `sdkerrors.Wrap`/`Wrapf` as the inductive
    `GoError` (a base registered error, or a wrap of a parent error with a
    context message); each distinct `return` site of the source is also
    identified by a constructor of `CheckErr` / `UpdateErr`, and
    `CheckErr.toGoError` / `UpdateErr.toGoError` give the Go error value the
    source constructs at that site (interpolated data such as `%s`/`%d`
    arguments is elided from the message text).
-/

namespace Tendermint

/-- Trust-level fraction `Fraction{Numerator, Denominator}` of the client
state (declared in `x/ibc/07-tendermint/types`, outside `src/`; modelled from
the spec: `trust_level: Fraction(num,den)`). -/
structure Fraction where
  numerator : Nat
  denominator : Nat
deriving DecidableEq

/-- Modelled from the spec: the header fields carried by a proto signed
header (`HeaderFields` of §3: chain identifier, height, timestamp and the
hashes the update logic reads, notably `AppHash`); the struct declaration
(`tmproto.Header`) is external library code. Byte strings are lists of
byte values. -/
structure ProtoHeaderFields where
  chainID : String
  height : Nat
  time : Int
  appHash : List Nat
  validatorsHash : List Nat
  nextValidatorsHash : List Nat
deriving DecidableEq

/-- Modelled from the spec: a commit, a collection of per-validator
signatures for a block identifier (§3 `Commit`); external library struct. -/
structure ProtoCommit where
  height : Nat
  blockIDHash : List Nat
  signatures : List (List Nat)
deriving DecidableEq

/-- Modelled from the spec: `SignedHeader = \x7b header, commit \x7d` (§3);
external library struct `tmproto.SignedHeader`. -/
structure ProtoSignedHeader where
  header : ProtoHeaderFields
  commit : ProtoCommit
deriving DecidableEq

/-- Modelled from the spec: a validator, `(address, public_key,
voting_power)` (§3); external library struct. -/
structure ProtoValidator where
  address : List Nat
  pubKey : List Nat
  votingPower : Nat
deriving DecidableEq

/-- Modelled from the spec: an ordered validator set (§3); external library
struct `tmproto.ValidatorSet`. -/
structure ProtoValidatorSet where
  validators : List ProtoValidator
deriving DecidableEq

/-- `types.Header`: the update payload, a proto signed header together with
the (possibly nil) proto validator set that produced it. The struct is
declared in `x/ibc/07-tendermint/types` (outside `src/`); its two fields are
the ones `update.go` reads: `SignedHeader` and `ValidatorSet`. -/
structure Header where
  signedHeader : ProtoSignedHeader
  validatorSet : Option ProtoValidatorSet
deriving DecidableEq

/-- Modelled from the spec: `Header.GetHeight` returns the height carried in
the signed header (heights are integers ≥ 1 per §3; the getter lives in
`types`, outside `src/`). -/
def Header.getHeight (h : Header) : Nat :=
  h.signedHeader.header.height

/-- Modelled from the spec: `Header.GetTime` returns the timestamp carried
in the signed header (the getter lives in `types`, outside `src/`). -/
def Header.getTime (h : Header) : Int :=
  h.signedHeader.header.time

/-- `types.ClientState` (declared in `x/ibc/07-tendermint/types`, outside
`src/`; fields modelled from the spec's ClientState of §3 together with the
fields `update.go` reads: `TrustLevel`, `TrustingPeriod`, `MaxClockDrift`,
`LastHeader`). `frozen` is the spec's frozen flag; note that the code under
`src/` never reads it. -/
structure ClientState where
  chainID : String
  trustLevel : Fraction
  trustingPeriod : Int
  unbondingPeriod : Int
  maxClockDrift : Int
  frozen : Bool
  lastHeader : Header
deriving DecidableEq

/-- Modelled from the spec: `GetChainID` getter (in `types`, outside
`src/`). -/
def ClientState.GetChainID (cs : ClientState) : String :=
  cs.chainID

/-- Modelled from the spec: `GetLatestTimestamp` returns the timestamp of
the latest trusted header (getter in `types`, outside `src/`). -/
def ClientState.GetLatestTimestamp (cs : ClientState) : Int :=
  cs.lastHeader.getTime

/-- Modelled from the spec: `GetLatestHeight` returns the height of the
latest trusted header (getter in `types`, outside `src/`). -/
def ClientState.GetLatestHeight (cs : ClientState) : Nat :=
  cs.lastHeader.getHeight

/-- `commitmenttypes.MerkleRoot`: a commitment root wrapping a hash
(declared in `x/ibc/23-commitment/types`, outside `src/`; modelled from the
spec's commitment root, a digest carried in a header). -/
structure MerkleRoot where
  hash : List Nat
deriving DecidableEq

/-- `commitmenttypes.NewMerkleRoot`: constructs a Merkle root from the given
hash bytes (outside `src/`; modelled from the spec's
`derive_root(app_hash)`). -/
def NewMerkleRoot (bz : List Nat) : MerkleRoot :=
  ⟨bz⟩

/-- `types.ConsensusState` with exactly the fields the `update` function of
`update.go` constructs: height, timestamp, commitment root, and the
candidate's validator set (the struct declaration is outside `src/`; the
construction in `src/x/ibc/07-tendermint/update.go` is the authority for
its fields). -/
structure ConsensusState where
  height : Nat
  timestamp : Int
  root : MerkleRoot
  validatorSet : Option ProtoValidatorSet
deriving DecidableEq

/-- Go `error` values as produced by `sdkerrors.Wrap`/`Wrapf`: a base
registered error with its message, or a wrap of a parent error with an added
context message. -/
inductive GoError where
  | base : String → GoError
  | wrap : GoError → String → GoError
deriving DecidableEq

/-- The registered error at the bottom of a (possibly nested) wrap. -/
def GoError.baseOf : GoError → GoError
  | .base m => .base m
  | .wrap p _ => p.baseOf

/-- Registered error `clienttypes.ErrInvalidClientType` (registered in
`x/ibc/02-client/types/errors.go`, outside `src/`; modelled from the spec's
error taxonomy). -/
def ErrInvalidClientType : GoError :=
  .base ("invalid client type")

/-- Registered error `clienttypes.ErrInvalidHeader` (outside `src/`). -/
def ErrInvalidHeader : GoError :=
  .base ("invalid header")

/-- Registered error `types.ErrTrustingPeriodExpired` (outside `src/`). -/
def ErrTrustingPeriodExpired : GoError :=
  .base ("time since latest trusted state has passed the trusting period")

/-- Registered error `clienttypes.ErrClientFrozen` (outside `src/`;
modelled from the spec: the error a frozen client is rejected with). The
update logic under `src/` never constructs it. -/
def ErrClientFrozen : GoError :=
  .base ("light client is frozen due to misbehaviour")

/-- `tmtypes.SignedHeader`, the domain form produced by
`SignedHeaderFromProto` (external library type; only ever passed through to
`lite.Verify`). -/
structure DomainSignedHeader where
  ofProto : ProtoSignedHeader
deriving DecidableEq

/-- `tmtypes.ValidatorSet`, the domain form produced by
`ValidatorSetFromProto` (external library type; only ever passed through to
`lite.Verify`). -/
structure DomainValidatorSet where
  ofProto : ProtoValidatorSet
deriving DecidableEq

/-- The external collaborators `update.go` calls into, all from the
Tendermint library (outside this repository): the two proto conversions
(fallible, returning an error message on failure) and the light-client
trust verifier `lite.Verify` (`none` = verification succeeded, `some e` =
it failed with Go error `e`). The verifier's arguments are, in source
order: chain id, trusted signed header, trusted validator set, untrusted
signed header, untrusted validator set, trusting period, current timestamp,
max clock drift, trust level. -/
structure Externals where
  signedHeaderFromProto : ProtoSignedHeader → Except String DomainSignedHeader
  validatorSetFromProto : Option ProtoValidatorSet → Except String DomainValidatorSet
  liteVerify : String → DomainSignedHeader → DomainValidatorSet →
    DomainSignedHeader → DomainValidatorSet → Int → Int → Int → Fraction →
    Option GoError

/-- One constructor per distinct error-return site of `checkValidity` in
`src/x/ibc/07-tendermint/update.go` (source order). The conversion-failure
constructors carry the converter's error message; `verifyFailed` carries
the error returned by `lite.Verify`. -/
inductive CheckErr where
  | trustingPeriodExpired
  | headerOutsideTrustingPeriod
  | nonMonotonicTimestamp
  | nonMonotonicHeight
  | invalidLastSignedHeader : String → CheckErr
  | invalidLastValidatorSet : String → CheckErr
  | invalidNewSignedHeader : String → CheckErr
  | invalidNewValidatorSet : String → CheckErr
  | verifyFailed : GoError → CheckErr
deriving DecidableEq

/-- The Go error value `checkValidity` constructs at each return site
(interpolated `%s`/`%d` data elided from the literal message text). -/
def CheckErr.toGoError : CheckErr → GoError
  | .trustingPeriodExpired =>
      .wrap ErrTrustingPeriodExpired
        ("current timestamp minus the latest trusted client state timestamp is greater than or equal to the trusting period")
  | .headerOutsideTrustingPeriod =>
      .wrap ErrInvalidHeader
        ("header blocktime is outside trusting period from last client timestamp")
  | .nonMonotonicTimestamp =>
      .wrap ErrInvalidHeader ("header blocktime ≤ latest client state block time")
  | .nonMonotonicHeight =>
      .wrap ErrInvalidHeader ("header height ≤ latest client state height")
  | .invalidLastSignedHeader msg =>
      .wrap ErrInvalidHeader ("invalid last signed header: " ++ msg)
  | .invalidLastValidatorSet msg =>
      .wrap ErrInvalidHeader ("invalid last validator set: " ++ msg)
  | .invalidNewSignedHeader msg =>
      .wrap ErrInvalidHeader ("invalid new signed header: " ++ msg)
  | .invalidNewValidatorSet msg =>
      .wrap ErrInvalidHeader ("invalid new validator set: " ++ msg)
  | .verifyFailed e => .wrap e ("failed to verify header")

/-- The temporal-violation rejections of `checkValidity`: the four checks
that run before any proto conversion or cryptographic verification. -/
def CheckErr.isTemporal : CheckErr → Bool
  | .trustingPeriodExpired => true
  | .headerOutsideTrustingPeriod => true
  | .nonMonotonicTimestamp => true
  | .nonMonotonicHeight => true
  | _ => false

/-- One constructor per distinct error case of
`CheckValidityAndUpdateState`: the two type-assertion failures, or an error
propagated from `checkValidity`. -/
inductive UpdateErr where
  | invalidClientType
  | invalidHeaderType
  | check : CheckErr → UpdateErr
deriving DecidableEq

/-- The Go error value `CheckValidityAndUpdateState` returns in each error
case (interpolated type names elided). -/
def UpdateErr.toGoError : UpdateErr → GoError
  | .invalidClientType => .wrap ErrInvalidClientType ("expected type tendermint ClientState")
  | .invalidHeaderType => .wrap ErrInvalidHeader ("expected type tendermint Header")
  | .check e => e.toGoError

/-- `time.Time.Unix`: whole seconds since the epoch of a nanosecond
instant, i.e. floor division by 10^9 (Lean's `Int` division is Euclidean,
which is floor division for a positive divisor). -/
def unixSeconds (t : Int) : Int :=
  t / 1000000000

/-- `checkValidity` of `src/x/ibc/07-tendermint/update.go` (lines 54-121):
the four temporal checks in source order (trusting period against the
current timestamp, trusting period against the header timestamp, monotonic
timestamp compared at Unix-second granularity, monotonic height), then the
four proto conversions, then the call to `lite.Verify`; `none` means the
header is valid. -/
def checkValidity (ext : Externals) (clientState : ClientState) (header : Header)
    (currentTimestamp : Int) : Option CheckErr :=
  if currentTimestamp - clientState.GetLatestTimestamp ≥ clientState.trustingPeriod then
    some .trustingPeriodExpired
  else if header.getTime - clientState.GetLatestTimestamp ≥ clientState.trustingPeriod then
    some .headerOutsideTrustingPeriod
  else if unixSeconds header.getTime ≤ unixSeconds clientState.GetLatestTimestamp then
    some .nonMonotonicTimestamp
  else if header.getHeight ≤ clientState.GetLatestHeight then
    some .nonMonotonicHeight
  else
    match ext.signedHeaderFromProto clientState.lastHeader.signedHeader with
    | .error msg => some (.invalidLastSignedHeader msg)
    | .ok trustedSignedHeader =>
      match ext.validatorSetFromProto clientState.lastHeader.validatorSet with
      | .error msg => some (.invalidLastValidatorSet msg)
      | .ok trustedValset =>
        match ext.signedHeaderFromProto header.signedHeader with
        | .error msg => some (.invalidNewSignedHeader msg)
        | .ok untrustedSignedHeader =>
          match ext.validatorSetFromProto header.validatorSet with
          | .error msg => some (.invalidNewValidatorSet msg)
          | .ok untrustedValset =>
            match ext.liteVerify clientState.GetChainID trustedSignedHeader
                trustedValset untrustedSignedHeader untrustedValset
                clientState.trustingPeriod currentTimestamp
                clientState.maxClockDrift clientState.trustLevel with
            | some e => some (.verifyFailed e)
            | none => none

/-- `update` of `src/x/ibc/07-tendermint/update.go` (lines 124-134): replace
the client state's `LastHeader` with the new header and build the
`ConsensusState` from the header's height, time, app hash and validator
set. -/
def update (clientState : ClientState) (header : Header) :
    ClientState × ConsensusState :=
  let clientState' := { clientState with lastHeader := header }
  let consensusState : ConsensusState :=
    { height := header.getHeight,
      timestamp := header.getTime,
      root := NewMerkleRoot header.signedHeader.header.appHash,
      validatorSet := header.validatorSet }
  (clientState', consensusState)

/-- The interface value `clientexported.ClientState` passed to
`CheckValidityAndUpdateState`: either a Tendermint `types.ClientState` or a
value of some other client type (represented by a tag). -/
inductive AnyClientState where
  | tendermint : ClientState → AnyClientState
  | other : String → AnyClientState
deriving DecidableEq

/-- The interface value `clientexported.Header` passed to
`CheckValidityAndUpdateState`: either a Tendermint `types.Header` or a
value of some other header type (represented by a tag). -/
inductive AnyHeader where
  | tendermint : Header → AnyHeader
  | other : String → AnyHeader
deriving DecidableEq

/-- `CheckValidityAndUpdateState` of `src/x/ibc/07-tendermint/update.go`
(lines 25-49): type-assert the client state and header to their Tendermint
forms, run `checkValidity`, and on success run `update`; mirrors the Go
triple return `(ClientState, ConsensusState, error)` with `nil` as
`none`. -/
def CheckValidityAndUpdateState (ext : Externals) (clientState : AnyClientState)
    (header : AnyHeader) (currentTimestamp : Int) :
    Option ClientState × Option ConsensusState × Option UpdateErr :=
  match clientState with
  | .other _ => (none, none, some .invalidClientType)
  | .tendermint tmClientState =>
    match header with
    | .other _ => (none, none, some .invalidHeaderType)
    | .tendermint tmHeader =>
      match checkValidity ext tmClientState tmHeader currentTimestamp with
      | some e => (none, none, some (.check e))
      | none =>
        let r := update tmClientState tmHeader
        (some r.1, some r.2, none)

/-! Concrete fixtures used by witnesses and counterexamples. -/

/-- Header fields of the trusted anchor: height 1, time 0 ns. -/
def fields0 : ProtoHeaderFields :=
  { chainID := "testchain", height := 1, time := 0,
    appHash := [1], validatorsHash := [2], nextValidatorsHash := [3] }

/-- A small concrete commit. -/
def commit0 : ProtoCommit :=
  { height := 1, blockIDHash := [4], signatures := [[5]] }

/-- A small concrete validator set. -/
def vs0 : ProtoValidatorSet :=
  { validators := [{ address := [6], pubKey := [7], votingPower := 10 }] }

/-- A second validator set, different from `vs0`. -/
def vs1 : ProtoValidatorSet :=
  { validators := [{ address := [8], pubKey := [9], votingPower := 20 }] }

/-- The trusted anchor header (height 1, time 0). -/
def header0 : Header :=
  { signedHeader := { header := fields0, commit := commit0 }, validatorSet := some vs0 }

/-- A client state anchored at `header0` with a 10-second trusting period. -/
def cs0 : ClientState :=
  { chainID := "testchain", trustLevel := { numerator := 1, denominator := 3 },
    trustingPeriod := 10000000000, unbondingPeriod := 20000000000,
    maxClockDrift := 5000000000, frozen := false, lastHeader := header0 }

/-- Candidate header fields: height 2, time 2 s. -/
def fields1 : ProtoHeaderFields :=
  { chainID := "testchain", height := 2, time := 2000000000,
    appHash := [11], validatorsHash := [2], nextValidatorsHash := [3] }

/-- A valid candidate header (height 2, time 2 s, validator set `vs0`). -/
def header1 : Header :=
  { signedHeader := { header := fields1, commit := commit0 }, validatorSet := some vs0 }

/-- Same signed header as `header1` but paired with validator set `vs1`. -/
def header1b : Header :=
  { signedHeader := { header := fields1, commit := commit0 }, validatorSet := some vs1 }

/-- Candidate header fields: height 2, time 0.5 s (same Unix second as the
anchor's time 0, but strictly later as an instant). -/
def fieldsSub : ProtoHeaderFields :=
  { chainID := "testchain", height := 2, time := 500000000,
    appHash := [11], validatorsHash := [2], nextValidatorsHash := [3] }

/-- Candidate header half a second after the anchor. -/
def headerSub : Header :=
  { signedHeader := { header := fieldsSub, commit := commit0 }, validatorSet := some vs0 }

/-- Externals whose conversions always succeed and whose verifier always
accepts. -/
def extOk : Externals :=
  { signedHeaderFromProto := fun p => .ok ⟨p⟩,
    validatorSetFromProto := fun
      | some v => .ok ⟨v⟩
      | none => .error ("nil validator set"),
    liteVerify := fun _ _ _ _ _ _ _ _ _ => none }

/-- Externals whose conversions always succeed and whose verifier always
fails with a fixed error. -/
def extFail : Externals :=
  { extOk with liteVerify := fun _ _ _ _ _ _ _ _ _ => some (.base ("boom")) }

/-- `cs0` with the frozen flag set. -/
def csFrozen : ClientState :=
  { cs0 with frozen := true }

/-- The consensus state a successful update with candidate `header1`
produces. -/
def cons1 : ConsensusState :=
  { height := 2, timestamp := 2000000000, root := ⟨[11]⟩, validatorSet := some vs0 }

/-- The consensus state a successful update with candidate `header1b`
produces. -/
def cons1b : ConsensusState :=
  { height := 2, timestamp := 2000000000, root := ⟨[11]⟩, validatorSet := some vs1 }

/-- Candidate header exactly at `latest.timestamp + trusting_period`
(time 10 s for `cs0`). -/
def headerTP : Header :=
  { signedHeader :=
      { header := { fields1 with time := 10000000000 }, commit := commit0 },
    validatorSet := some vs0 }

/-- Candidate header one nanosecond inside the trusting period
(time 10 s − 1 ns for `cs0`). -/
def headerTP1 : Header :=
  { signedHeader :=
      { header := { fields1 with time := 9999999999 }, commit := commit0 },
    validatorSet := some vs0 }

/-! Helper lemmas. -/

/-- Truncation to whole Unix seconds is monotone. -/
lemma unixSeconds_mono {a b : Int} (h : a ≤ b) : unixSeconds a ≤ unixSeconds b :=
  Int.ediv_le_ediv (by norm_num) h

/-- If the current timestamp is outside the trusting period, `checkValidity`
rejects at its first check. -/
lemma cv_c1 (ext : Externals) (cs : ClientState) (h : Header) (t : Int)
    (h1 : t - cs.GetLatestTimestamp ≥ cs.trustingPeriod) :
    checkValidity ext cs h t = some .trustingPeriodExpired := by
  unfold checkValidity
  rw [if_pos h1]

/-- If the header timestamp is outside the trusting period, `checkValidity`
rejects at its second check. -/
lemma cv_c2 (ext : Externals) (cs : ClientState) (h : Header) (t : Int)
    (h1 : ¬ t - cs.GetLatestTimestamp ≥ cs.trustingPeriod)
    (h2 : h.getTime - cs.GetLatestTimestamp ≥ cs.trustingPeriod) :
    checkValidity ext cs h t = some .headerOutsideTrustingPeriod := by
  unfold checkValidity
  rw [if_neg h1, if_pos h2]

/-- If the header's Unix-second timestamp is not past the latest one,
`checkValidity` rejects at its third check. -/
lemma cv_c3 (ext : Externals) (cs : ClientState) (h : Header) (t : Int)
    (h1 : ¬ t - cs.GetLatestTimestamp ≥ cs.trustingPeriod)
    (h2 : ¬ h.getTime - cs.GetLatestTimestamp ≥ cs.trustingPeriod)
    (h3 : unixSeconds h.getTime ≤ unixSeconds cs.GetLatestTimestamp) :
    checkValidity ext cs h t = some .nonMonotonicTimestamp := by
  unfold checkValidity
  rw [if_neg h1, if_neg h2, if_pos h3]

/-- If the header's height is not past the latest one, `checkValidity`
rejects at its fourth check. -/
lemma cv_c4 (ext : Externals) (cs : ClientState) (h : Header) (t : Int)
    (h1 : ¬ t - cs.GetLatestTimestamp ≥ cs.trustingPeriod)
    (h2 : ¬ h.getTime - cs.GetLatestTimestamp ≥ cs.trustingPeriod)
    (h3 : ¬ unixSeconds h.getTime ≤ unixSeconds cs.GetLatestTimestamp)
    (h4 : h.getHeight ≤ cs.GetLatestHeight) :
    checkValidity ext cs h t = some .nonMonotonicHeight := by
  unfold checkValidity
  rw [if_neg h1, if_neg h2, if_neg h3, if_pos h4]

/-- Once all four temporal checks pass, the remaining error cases of
`checkValidity` (proto conversions and the verifier) never produce a
temporal-violation error. -/
lemma cv_tail_not_temporal (ext : Externals) (cs : ClientState) (h : Header) (t : Int)
    (h1 : ¬ t - cs.GetLatestTimestamp ≥ cs.trustingPeriod)
    (h2 : ¬ h.getTime - cs.GetLatestTimestamp ≥ cs.trustingPeriod)
    (h3 : ¬ unixSeconds h.getTime ≤ unixSeconds cs.GetLatestTimestamp)
    (h4 : ¬ h.getHeight ≤ cs.GetLatestHeight) :
    ∀ e : CheckErr, checkValidity ext cs h t = some e → e.isTemporal = false := by
  intro e he
  unfold checkValidity at he
  rw [if_neg h1, if_neg h2, if_neg h3, if_neg h4] at he
  cases hsh : ext.signedHeaderFromProto cs.lastHeader.signedHeader with
  | error msg =>
    simp only [hsh, Option.some.injEq] at he
    subst he
    rfl
  | ok tsh =>
    simp only [hsh] at he
    cases hvs : ext.validatorSetFromProto cs.lastHeader.validatorSet with
    | error msg =>
      simp only [hvs, Option.some.injEq] at he
      subst he
      rfl
    | ok tvs =>
      simp only [hvs] at he
      cases hsh2 : ext.signedHeaderFromProto h.signedHeader with
      | error msg =>
        simp only [hsh2, Option.some.injEq] at he
        subst he
        rfl
      | ok ush =>
        simp only [hsh2] at he
        cases hvs2 : ext.validatorSetFromProto h.validatorSet with
        | error msg =>
          simp only [hvs2, Option.some.injEq] at he
          subst he
          rfl
        | ok uvs =>
          simp only [hvs2] at he
          cases hv : ext.liteVerify cs.GetChainID tsh tvs ush uvs cs.trustingPeriod t
              cs.maxClockDrift cs.trustLevel with
          | some e' =>
            simp only [hv, Option.some.injEq] at he
            subst he
            rfl
          | none =>
            simp only [hv] at he
            exact Option.noConfusion he

/-- When `checkValidity` fails, `CheckValidityAndUpdateState` propagates the
failure with no states. -/
lemma CVAUS_check_eq (ext : Externals) (cs : ClientState) (h : Header) (t : Int)
    (e : CheckErr) (hcv : checkValidity ext cs h t = some e) :
    CheckValidityAndUpdateState ext (.tendermint cs) (.tendermint h) t =
      (none, none, some (.check e)) := by
  simp only [CheckValidityAndUpdateState, hcv]

/-- Conversely, a propagated `check` failure of `CheckValidityAndUpdateState`
comes from `checkValidity`. -/
lemma CVAUS_check_inv (ext : Externals) (cs : ClientState) (h : Header) (t : Int)
    (e : CheckErr)
    (hres : CheckValidityAndUpdateState ext (.tendermint cs) (.tendermint h) t =
      (none, none, some (.check e))) :
    checkValidity ext cs h t = some e := by
  cases hcv : checkValidity ext cs h t with
  | some e' =>
    simp only [CheckValidityAndUpdateState, hcv, Prod.mk.injEq, Option.some.injEq,
      UpdateErr.check.injEq, true_and] at hres
    exact congrArg some hres
  | none =>
    simp only [CheckValidityAndUpdateState, hcv, Prod.mk.injEq] at hres
    exact absurd hres.2.2 (by simp)

/-! Claim theorems. -/

/-- Claim C1 (counterexample): the claim says every `apply_update`
(`CheckValidityAndUpdateState`) call on a client with `frozen = true` fails
with `ErrClientFrozen` without touching the verifier. On the code it is
false: here a frozen client's update call returns no error at all and
performs the state transition (the function never reads the frozen
flag). -/
theorem C1_counterexample :
    csFrozen.frozen = true ∧
    (CheckValidityAndUpdateState extOk (.tendermint csFrozen) (.tendermint header1)
        3000000000).2.2 = none ∧
    (CheckValidityAndUpdateState extOk (.tendermint csFrozen) (.tendermint header1)
        3000000000).1 = some { csFrozen with lastHeader := header1 } := by
  decide

/-- Claim C1 (amended): `CheckValidityAndUpdateState` never inspects the
frozen flag: for every input, the outcome on a client with `frozen = true`
is exactly the outcome on the same client with `frozen = false`, except
that the frozen flag is carried through into the returned client state. In
this repository the `ErrClientFrozen` rejection is enforced by the
02-client keeper before this function is called, not by this function. -/
theorem C1_amended (ext : Externals) (cs : ClientState) (ah : AnyHeader) (t : Int) :
    CheckValidityAndUpdateState ext (.tendermint { cs with frozen := true }) ah t =
      ((CheckValidityAndUpdateState ext (.tendermint { cs with frozen := false }) ah t).1.map
          (fun c => { c with frozen := true }),
        (CheckValidityAndUpdateState ext (.tendermint { cs with frozen := false }) ah t).2.1,
        (CheckValidityAndUpdateState ext (.tendermint { cs with frozen := false }) ah t).2.2) := by
  cases ah with
  | other s => rfl
  | tendermint h =>
    have hcv : checkValidity ext { cs with frozen := true } h t =
        checkValidity ext { cs with frozen := false } h t := rfl
    cases hcv2 : checkValidity ext { cs with frozen := false } h t with
    | some e =>
      simp only [CheckValidityAndUpdateState, hcv, hcv2, Option.map_none']
    | none =>
      simp only [CheckValidityAndUpdateState, hcv, hcv2, update, Option.map_some']

/-- Claim C2 (counterexample): the claim says a successful update's
`ConsensusState` is `(height, timestamp, commitment_root,
next_validators_hash)` derived from the candidate. On the code it is false:
two candidates sharing the entire signed header (hence every header field
and hash, including the next-validators hash) but paired with different
validator sets both succeed and yield different consensus states, because
the code stores the candidate's validator set itself in the consensus
state. -/
theorem C2_counterexample :
    header1.signedHeader = header1b.signedHeader ∧
    (CheckValidityAndUpdateState extOk (.tendermint cs0) (.tendermint header1)
        3000000000).2.2 = none ∧
    (CheckValidityAndUpdateState extOk (.tendermint cs0) (.tendermint header1b)
        3000000000).2.2 = none ∧
    (CheckValidityAndUpdateState extOk (.tendermint cs0) (.tendermint header1)
        3000000000).2.1 ≠
      (CheckValidityAndUpdateState extOk (.tendermint cs0) (.tendermint header1b)
        3000000000).2.1 ∧
    (CheckValidityAndUpdateState extOk (.tendermint cs0) (.tendermint header1b)
        3000000000).2.1 = some cons1b := by
  decide

/-- Claim C2 (amended): for every successful
`CheckValidityAndUpdateState` call, the returned `ConsensusState` has
height equal to the candidate's height, timestamp equal to the candidate's
timestamp, commitment root derived from the candidate's
`signed_header.header.app_hash`, and a validator-set field equal to the
candidate's paired validator set (the code stores the validator set
itself; the header carries no next validator set and the consensus state
carries no next-validators hash). -/
theorem C2_amended (ext : Externals) (cs : ClientState) (h : Header) (t : Int)
    (cs' : ClientState) (cons : ConsensusState)
    (hs : CheckValidityAndUpdateState ext (.tendermint cs) (.tendermint h) t =
      (some cs', some cons, none)) :
    cons.height = h.getHeight ∧ cons.timestamp = h.getTime ∧
    cons.root = NewMerkleRoot h.signedHeader.header.appHash ∧
    cons.validatorSet = h.validatorSet := by
  cases hcv : checkValidity ext cs h t with
  | some e =>
    simp only [CheckValidityAndUpdateState, hcv, Prod.mk.injEq] at hs
    exact absurd hs.1 (by simp)
  | none =>
    simp only [CheckValidityAndUpdateState, hcv, update, Prod.mk.injEq,
      Option.some.injEq] at hs
    obtain ⟨-, h2, -⟩ := hs
    subst h2
    exact ⟨rfl, rfl, rfl, rfl⟩

/-- Claim C2 witness: the amended theorem applied to a concrete successful
update. -/
theorem C2_witness :
    cons1.height = header1.getHeight ∧ cons1.timestamp = header1.getTime ∧
    cons1.root = NewMerkleRoot header1.signedHeader.header.appHash ∧
    cons1.validatorSet = header1.validatorSet :=
  C2_amended extOk cs0 header1 3000000000 { cs0 with lastHeader := header1 } cons1
    (by decide)

/-- Claim C3: any candidate whose height or timestamp is not past the
latest trusted header's is rejected before any cryptographic check: a
single temporal error is returned and the result is the same for every
externals record (so the trust verifier, and indeed every external
collaborator, is never invoked on that input). Heights are the spec's
integers (the `GetHeight` getters live outside `src/`). -/
theorem C3_monotonic_reject (cs : ClientState) (h : Header) (t : Int)
    (hyp : h.getHeight ≤ cs.GetLatestHeight ∨ h.getTime ≤ cs.GetLatestTimestamp) :
    ∃ e : CheckErr, e.isTemporal = true ∧ ∀ ext : Externals,
      CheckValidityAndUpdateState ext (.tendermint cs) (.tendermint h) t =
        (none, none, some (.check e)) := by
  by_cases h1 : t - cs.GetLatestTimestamp ≥ cs.trustingPeriod
  · exact ⟨.trustingPeriodExpired, rfl,
      fun ext => CVAUS_check_eq ext cs h t _ (cv_c1 ext cs h t h1)⟩
  · by_cases h2 : h.getTime - cs.GetLatestTimestamp ≥ cs.trustingPeriod
    · exact ⟨.headerOutsideTrustingPeriod, rfl,
        fun ext => CVAUS_check_eq ext cs h t _ (cv_c2 ext cs h t h1 h2)⟩
    · by_cases h3 : unixSeconds h.getTime ≤ unixSeconds cs.GetLatestTimestamp
      · exact ⟨.nonMonotonicTimestamp, rfl,
          fun ext => CVAUS_check_eq ext cs h t _ (cv_c3 ext cs h t h1 h2 h3)⟩
      · have h4 : h.getHeight ≤ cs.GetLatestHeight := by
          rcases hyp with hh | ht
          · exact hh
          · exact absurd (unixSeconds_mono ht) h3
        exact ⟨.nonMonotonicHeight, rfl,
          fun ext => CVAUS_check_eq ext cs h t _ (cv_c4 ext cs h t h1 h2 h3 h4)⟩

/-- Claim C3 witness: a stale candidate (the anchor header itself) is
rejected with a temporal error for every externals record. -/
theorem C3_witness :
    ∃ e : CheckErr, e.isTemporal = true ∧ ∀ ext : Externals,
      CheckValidityAndUpdateState ext (.tendermint cs0) (.tendermint header0)
        1000000000 = (none, none, some (.check e)) :=
  C3_monotonic_reject cs0 header0 1000000000 (Or.inl (by decide))

/-- Claim C4 (counterexample): the claim says (given the trusting-period
checks pass) the non-monotonic-timestamp rejection fires exactly when
`candidate.timestamp ≤ latest.timestamp`. On the code it is false at
sub-second granularity: this candidate's timestamp (0.5 s) is strictly
greater than the latest timestamp (0 s), yet the code rejects it as
non-monotonic because the comparison is made on `Unix()` whole seconds. -/
theorem C4_counterexample :
    cs0.GetLatestTimestamp < headerSub.getTime ∧
    ¬ (1000000000 : Int) - cs0.GetLatestTimestamp ≥ cs0.trustingPeriod ∧
    ¬ headerSub.getTime - cs0.GetLatestTimestamp ≥ cs0.trustingPeriod ∧
    CheckValidityAndUpdateState extOk (.tendermint cs0) (.tendermint headerSub)
      1000000000 = (none, none, some (.check .nonMonotonicTimestamp)) := by
  decide

/-- Claim C4 (amended): given the two trusting-period checks pass, the call
rejects with the non-monotonic-timestamp error exactly when the candidate's
timestamp truncated to whole Unix seconds is ≤ the latest timestamp
truncated to whole Unix seconds (the code compares `Unix()` values, not the
instants themselves), and — that check passing — rejects with the
non-monotonic-height error exactly when the candidate's height is ≤ the
latest height. -/
theorem C4_amended (ext : Externals) (cs : ClientState) (h : Header) (t : Int)
    (h1 : ¬ t - cs.GetLatestTimestamp ≥ cs.trustingPeriod)
    (h2 : ¬ h.getTime - cs.GetLatestTimestamp ≥ cs.trustingPeriod) :
    (CheckValidityAndUpdateState ext (.tendermint cs) (.tendermint h) t =
        (none, none, some (.check .nonMonotonicTimestamp)) ↔
      unixSeconds h.getTime ≤ unixSeconds cs.GetLatestTimestamp) ∧
    (¬ unixSeconds h.getTime ≤ unixSeconds cs.GetLatestTimestamp →
      (CheckValidityAndUpdateState ext (.tendermint cs) (.tendermint h) t =
          (none, none, some (.check .nonMonotonicHeight)) ↔
        h.getHeight ≤ cs.GetLatestHeight)) := by
  constructor
  · constructor
    · intro hres
      by_contra h3
      have hcv := CVAUS_check_inv ext cs h t _ hres
      by_cases h4 : h.getHeight ≤ cs.GetLatestHeight
      · rw [cv_c4 ext cs h t h1 h2 h3 h4] at hcv
        exact absurd (Option.some.inj hcv) (by simp)
      · have := cv_tail_not_temporal ext cs h t h1 h2 h3 h4 _ hcv
        simp [CheckErr.isTemporal] at this
    · intro h3
      exact CVAUS_check_eq ext cs h t _ (cv_c3 ext cs h t h1 h2 h3)
  · intro h3
    constructor
    · intro hres
      by_contra h4
      have hcv := CVAUS_check_inv ext cs h t _ hres
      have := cv_tail_not_temporal ext cs h t h1 h2 h3 h4 _ hcv
      simp [CheckErr.isTemporal] at this
    · intro h4
      exact CVAUS_check_eq ext cs h t _ (cv_c4 ext cs h t h1 h2 h3 h4)

/-- Claim C4 witness: the amended theorem applied to a concrete client and
candidate on which the trusting-period checks pass. -/
theorem C4_witness :
    (CheckValidityAndUpdateState extOk (.tendermint cs0) (.tendermint headerSub)
        1000000000 = (none, none, some (.check .nonMonotonicTimestamp)) ↔
      unixSeconds headerSub.getTime ≤ unixSeconds cs0.GetLatestTimestamp) ∧
    (¬ unixSeconds headerSub.getTime ≤ unixSeconds cs0.GetLatestTimestamp →
      (CheckValidityAndUpdateState extOk (.tendermint cs0) (.tendermint headerSub)
          1000000000 = (none, none, some (.check .nonMonotonicHeight)) ↔
        headerSub.getHeight ≤ cs0.GetLatestHeight)) :=
  C4_amended extOk cs0 headerSub 1000000000 (by decide) (by decide)

/-- Claim C5: a candidate whose timestamp is exactly
`latest.timestamp + trusting_period` is rejected (for every current
timestamp and externals record), while a candidate one nanosecond earlier
is never rejected by the header trusting-period check — if everything else
is valid it is accepted, and any rejection it does get comes from a
different check. -/
theorem C5_boundary (ext : Externals) (cs : ClientState) (t : Int) (hA hB : Header)
    (eA : hA.getTime = cs.GetLatestTimestamp + cs.trustingPeriod)
    (eB : hB.getTime = cs.GetLatestTimestamp + cs.trustingPeriod - 1) :
    (∃ e : CheckErr, CheckValidityAndUpdateState ext (.tendermint cs) (.tendermint hA) t =
        (none, none, some (.check e))) ∧
    (CheckValidityAndUpdateState ext (.tendermint cs) (.tendermint hB) t ≠
      (none, none, some (.check .headerOutsideTrustingPeriod))) ∧
    (¬ t - cs.GetLatestTimestamp ≥ cs.trustingPeriod →
      ¬ unixSeconds hB.getTime ≤ unixSeconds cs.GetLatestTimestamp →
      ¬ hB.getHeight ≤ cs.GetLatestHeight →
      ∀ (tsh ush : DomainSignedHeader) (tvs uvs : DomainValidatorSet),
        ext.signedHeaderFromProto cs.lastHeader.signedHeader = .ok tsh →
        ext.validatorSetFromProto cs.lastHeader.validatorSet = .ok tvs →
        ext.signedHeaderFromProto hB.signedHeader = .ok ush →
        ext.validatorSetFromProto hB.validatorSet = .ok uvs →
        ext.liteVerify cs.GetChainID tsh tvs ush uvs cs.trustingPeriod t
          cs.maxClockDrift cs.trustLevel = none →
        CheckValidityAndUpdateState ext (.tendermint cs) (.tendermint hB) t =
          (some { cs with lastHeader := hB }, some (update cs hB).2, none)) := by
  refine ⟨?_, ?_, ?_⟩
  · by_cases h1 : t - cs.GetLatestTimestamp ≥ cs.trustingPeriod
    · exact ⟨_, CVAUS_check_eq ext cs hA t _ (cv_c1 ext cs hA t h1)⟩
    · have h2 : hA.getTime - cs.GetLatestTimestamp ≥ cs.trustingPeriod := by
        rw [eA]; omega
      exact ⟨_, CVAUS_check_eq ext cs hA t _ (cv_c2 ext cs hA t h1 h2)⟩
  · intro hres
    have hcv := CVAUS_check_inv ext cs hB t _ hres
    have h2 : ¬ hB.getTime - cs.GetLatestTimestamp ≥ cs.trustingPeriod := by
      rw [eB]; omega
    by_cases h1 : t - cs.GetLatestTimestamp ≥ cs.trustingPeriod
    · rw [cv_c1 ext cs hB t h1] at hcv
      exact absurd (Option.some.inj hcv) (by simp)
    · by_cases h3 : unixSeconds hB.getTime ≤ unixSeconds cs.GetLatestTimestamp
      · rw [cv_c3 ext cs hB t h1 h2 h3] at hcv
        exact absurd (Option.some.inj hcv) (by simp)
      · by_cases h4 : hB.getHeight ≤ cs.GetLatestHeight
        · rw [cv_c4 ext cs hB t h1 h2 h3 h4] at hcv
          exact absurd (Option.some.inj hcv) (by simp)
        · have := cv_tail_not_temporal ext cs hB t h1 h2 h3 h4 _ hcv
          simp [CheckErr.isTemporal] at this
  · intro h1 h3 h4 tsh ush tvs uvs c1 c2 c3 c4 hv
    have h2 : ¬ hB.getTime - cs.GetLatestTimestamp ≥ cs.trustingPeriod := by
      rw [eB]; omega
    have hcv : checkValidity ext cs hB t = none := by
      unfold checkValidity
      rw [if_neg h1, if_neg h2, if_neg h3, if_neg h4]
      simp only [c1, c2, c3, c4, hv]
    simp only [CheckValidityAndUpdateState, hcv, update]

/-- Claim C5 witness: the boundary theorem applied to concrete candidates
at `latest + trusting_period` and `latest + trusting_period - 1`. -/
theorem C5_witness :
    (∃ e : CheckErr, CheckValidityAndUpdateState extOk (.tendermint cs0)
        (.tendermint headerTP) 1000000000 = (none, none, some (.check e))) ∧
    (CheckValidityAndUpdateState extOk (.tendermint cs0) (.tendermint headerTP1)
        1000000000 ≠
      (none, none, some (.check .headerOutsideTrustingPeriod))) ∧
    (¬ (1000000000 : Int) - cs0.GetLatestTimestamp ≥ cs0.trustingPeriod →
      ¬ unixSeconds headerTP1.getTime ≤ unixSeconds cs0.GetLatestTimestamp →
      ¬ headerTP1.getHeight ≤ cs0.GetLatestHeight →
      ∀ (tsh ush : DomainSignedHeader) (tvs uvs : DomainValidatorSet),
        extOk.signedHeaderFromProto cs0.lastHeader.signedHeader = .ok tsh →
        extOk.validatorSetFromProto cs0.lastHeader.validatorSet = .ok tvs →
        extOk.signedHeaderFromProto headerTP1.signedHeader = .ok ush →
        extOk.validatorSetFromProto headerTP1.validatorSet = .ok uvs →
        extOk.liteVerify cs0.GetChainID tsh tvs ush uvs cs0.trustingPeriod 1000000000
          cs0.maxClockDrift cs0.trustLevel = none →
        CheckValidityAndUpdateState extOk (.tendermint cs0) (.tendermint headerTP1)
          1000000000 =
          (some { cs0 with lastHeader := headerTP1 }, some (update cs0 headerTP1).2,
            none)) :=
  C5_boundary extOk cs0 1000000000 headerTP headerTP1 (by decide) (by decide)

/-- Claim C6: after a successful update, immediately replaying the same
candidate against the returned client state fails with a
temporal-violation error, for every later wall-clock time and every
externals record — the replay never reaches the verifier and never
succeeds. -/
theorem C6_replay (ext : Externals) (cs : ClientState) (h : Header) (t : Int)
    (cs' : ClientState) (cons : ConsensusState)
    (hs : CheckValidityAndUpdateState ext (.tendermint cs) (.tendermint h) t =
      (some cs', some cons, none)) :
    ∀ t' : Int, ∃ e : CheckErr, e.isTemporal = true ∧ ∀ ext' : Externals,
      CheckValidityAndUpdateState ext' (.tendermint cs') (.tendermint h) t' =
        (none, none, some (.check e)) := by
  have hlh : cs'.lastHeader = h := by
    cases hcv : checkValidity ext cs h t with
    | some e =>
      simp only [CheckValidityAndUpdateState, hcv, Prod.mk.injEq] at hs
      exact absurd hs.1 (by simp)
    | none =>
      simp only [CheckValidityAndUpdateState, hcv, update, Prod.mk.injEq,
        Option.some.injEq] at hs
      obtain ⟨h1, -, -⟩ := hs
      subst h1
      rfl
  have hts : cs'.GetLatestTimestamp = h.getTime := by
    simp [ClientState.GetLatestTimestamp, hlh]
  intro t'
  by_cases h1 : t' - cs'.GetLatestTimestamp ≥ cs'.trustingPeriod
  · exact ⟨.trustingPeriodExpired, rfl,
      fun ext' => CVAUS_check_eq ext' cs' h t' _ (cv_c1 ext' cs' h t' h1)⟩
  · by_cases h2 : h.getTime - cs'.GetLatestTimestamp ≥ cs'.trustingPeriod
    · exact ⟨.headerOutsideTrustingPeriod, rfl,
        fun ext' => CVAUS_check_eq ext' cs' h t' _ (cv_c2 ext' cs' h t' h1 h2)⟩
    · have h3 : unixSeconds h.getTime ≤ unixSeconds cs'.GetLatestTimestamp := by
        rw [hts]
      exact ⟨.nonMonotonicTimestamp, rfl,
        fun ext' => CVAUS_check_eq ext' cs' h t' _ (cv_c3 ext' cs' h t' h1 h2 h3)⟩

/-- Claim C6 witness: the replay theorem applied to a concrete successful
update. -/
theorem C6_witness :
    ∃ e : CheckErr, e.isTemporal = true ∧ ∀ ext' : Externals,
      CheckValidityAndUpdateState ext' (.tendermint { cs0 with lastHeader := header1 })
        (.tendermint header1) 5000000000 = (none, none, some (.check e)) :=
  C6_replay extOk cs0 header1 3000000000 { cs0 with lastHeader := header1 } cons1
    (by decide) 5000000000

/-- Claim C7 (counterexample): the claim says the verifier's error is
returned verbatim (unchanged). On the code it is false: the verifier's
error `boom` comes back wrapped by `sdkerrors.Wrap` with the added message
`failed to verify header`, which is a different error value. -/
theorem C7_counterexample :
    (CheckValidityAndUpdateState extFail (.tendermint cs0) (.tendermint header1)
        3000000000).2.2 = some (.check (.verifyFailed (.base ("boom")))) ∧
    (UpdateErr.check (.verifyFailed (GoError.base ("boom")))).toGoError ≠
      GoError.base ("boom") := by
  decide

/-- Claim C7 (amended): whenever the trust verifier is reached and fails
with error `e`, the call returns exactly that failure — `e` preserved as
the parent of the returned error, which is `e` wrapped with the context
message `failed to verify header` (not `e` itself). -/
theorem C7_amended (ext : Externals) (cs : ClientState) (h : Header) (t : Int)
    (tsh ush : DomainSignedHeader) (tvs uvs : DomainValidatorSet) (e : GoError)
    (h1 : ¬ t - cs.GetLatestTimestamp ≥ cs.trustingPeriod)
    (h2 : ¬ h.getTime - cs.GetLatestTimestamp ≥ cs.trustingPeriod)
    (h3 : ¬ unixSeconds h.getTime ≤ unixSeconds cs.GetLatestTimestamp)
    (h4 : ¬ h.getHeight ≤ cs.GetLatestHeight)
    (c1 : ext.signedHeaderFromProto cs.lastHeader.signedHeader = .ok tsh)
    (c2 : ext.validatorSetFromProto cs.lastHeader.validatorSet = .ok tvs)
    (c3 : ext.signedHeaderFromProto h.signedHeader = .ok ush)
    (c4 : ext.validatorSetFromProto h.validatorSet = .ok uvs)
    (hv : ext.liteVerify cs.GetChainID tsh tvs ush uvs cs.trustingPeriod t
      cs.maxClockDrift cs.trustLevel = some e) :
    CheckValidityAndUpdateState ext (.tendermint cs) (.tendermint h) t =
      (none, none, some (.check (.verifyFailed e))) ∧
    (UpdateErr.check (.verifyFailed e)).toGoError =
      .wrap e ("failed to verify header") := by
  refine ⟨CVAUS_check_eq ext cs h t _ ?_, rfl⟩
  unfold checkValidity
  rw [if_neg h1, if_neg h2, if_neg h3, if_neg h4]
  simp only [c1, c2, c3, c4, hv]

/-- Claim C7 witness: the amended theorem applied to a concrete input whose
verifier fails with the error `boom`. -/
theorem C7_witness :
    CheckValidityAndUpdateState extFail (.tendermint cs0) (.tendermint header1)
        3000000000 = (none, none, some (.check (.verifyFailed (.base ("boom"))))) ∧
    (UpdateErr.check (.verifyFailed (GoError.base ("boom")))).toGoError =
      .wrap (.base ("boom")) ("failed to verify header") :=
  C7_amended extFail cs0 header1 3000000000 ⟨cs0.lastHeader.signedHeader⟩
    ⟨header1.signedHeader⟩ ⟨vs0⟩ ⟨vs0⟩ (.base ("boom"))
    (by decide) (by decide) (by decide) (by decide) rfl rfl rfl rfl rfl

/-- Claim C8: whenever `CheckValidityAndUpdateState` returns an error, no
state transition occurs: both the returned client state and the returned
consensus state are `none` (the Go function returns `nil, nil, err` at
every error site; the input client state is a value and is never
mutated). -/
theorem C8_all_or_nothing (ext : Externals) (acs : AnyClientState) (ah : AnyHeader)
    (t : Int) (a : Option ClientState) (b : Option ConsensusState) (e : UpdateErr)
    (hres : CheckValidityAndUpdateState ext acs ah t = (a, b, some e)) :
    a = none ∧ b = none := by
  cases acs with
  | other s =>
    simp only [CheckValidityAndUpdateState, Prod.mk.injEq] at hres
    exact ⟨hres.1.symm, hres.2.1.symm⟩
  | tendermint cs =>
    cases ah with
    | other s =>
      simp only [CheckValidityAndUpdateState, Prod.mk.injEq] at hres
      exact ⟨hres.1.symm, hres.2.1.symm⟩
    | tendermint h =>
      cases hcv : checkValidity ext cs h t with
      | some e' =>
        simp only [CheckValidityAndUpdateState, hcv, Prod.mk.injEq] at hres
        exact ⟨hres.1.symm, hres.2.1.symm⟩
      | none =>
        simp only [CheckValidityAndUpdateState, hcv, Prod.mk.injEq] at hres
        exact absurd hres.2.2 (by simp)

/-- Claim C8 witness: the theorem applied to a concrete failing call. -/
theorem C8_witness :
    (CheckValidityAndUpdateState extOk (.other ("solomachine")) (.tendermint header1) 0).1
        = none ∧
    (CheckValidityAndUpdateState extOk (.other ("solomachine")) (.tendermint header1) 0).2.1
        = none :=
  C8_all_or_nothing extOk (.other ("solomachine")) (.tendermint header1) 0 _ _
    .invalidClientType rfl

/-- Claim C9: a successful `CheckValidityAndUpdateState` call returns the
input client state with only `LastHeader` replaced by the candidate header;
chain id, trust level, trusting period, unbonding period, max clock drift
and the frozen flag are unchanged. -/
theorem C9_frame (ext : Externals) (cs : ClientState) (h : Header) (t : Int)
    (cs' : ClientState) (cons : ConsensusState)
    (hs : CheckValidityAndUpdateState ext (.tendermint cs) (.tendermint h) t =
      (some cs', some cons, none)) :
    cs'.chainID = cs.chainID ∧ cs'.trustLevel = cs.trustLevel ∧
    cs'.trustingPeriod = cs.trustingPeriod ∧ cs'.unbondingPeriod = cs.unbondingPeriod ∧
    cs'.maxClockDrift = cs.maxClockDrift ∧ cs'.frozen = cs.frozen ∧
    cs'.lastHeader = h := by
  cases hcv : checkValidity ext cs h t with
  | some e =>
    simp only [CheckValidityAndUpdateState, hcv, Prod.mk.injEq] at hs
    exact absurd hs.1 (by simp)
  | none =>
    simp only [CheckValidityAndUpdateState, hcv, update, Prod.mk.injEq,
      Option.some.injEq] at hs
    obtain ⟨h1, -, -⟩ := hs
    subst h1
    exact ⟨rfl, rfl, rfl, rfl, rfl, rfl, rfl⟩

/-- Claim C9 witness: the theorem applied to a concrete successful call. -/
theorem C9_witness :
    ({ cs0 with lastHeader := header1 } : ClientState).chainID = cs0.chainID ∧
    ({ cs0 with lastHeader := header1 } : ClientState).trustLevel = cs0.trustLevel ∧
    ({ cs0 with lastHeader := header1 } : ClientState).trustingPeriod = cs0.trustingPeriod ∧
    ({ cs0 with lastHeader := header1 } : ClientState).unbondingPeriod = cs0.unbondingPeriod ∧
    ({ cs0 with lastHeader := header1 } : ClientState).maxClockDrift = cs0.maxClockDrift ∧
    ({ cs0 with lastHeader := header1 } : ClientState).frozen = cs0.frozen ∧
    ({ cs0 with lastHeader := header1 } : ClientState).lastHeader = header1 :=
  C9_frame extOk cs0 header1 3000000000 { cs0 with lastHeader := header1 } cons1
    (by decide)

/-- Claim C10: a non-Tendermint client state value makes
`CheckValidityAndUpdateState` return `(nil, nil, ErrInvalidClientType)`,
and (with a Tendermint client state) a non-Tendermint header value makes it
return `(nil, nil, ErrInvalidHeader)`; in both cases the result is this
constant, for every externals record and every current timestamp, so no
temporal or cryptographic check is performed. -/
theorem C10_type_assertions (ext : Externals) (t : Int) :
    (∀ (s : String) (ah : AnyHeader),
        CheckValidityAndUpdateState ext (.other s) ah t =
          (none, none, some .invalidClientType)) ∧
    (∀ (cs : ClientState) (s : String),
        CheckValidityAndUpdateState ext (.tendermint cs) (.other s) t =
          (none, none, some .invalidHeaderType)) :=
  ⟨fun _ _ => rfl, fun _ _ => rfl⟩

end Tendermint
